import Mathlib

/-!
Verification development for the Cascade multi-agent DOM-takeover engine.

The definitions below are a shallow embedding of the engine's source:

* the CDP controller (`getPanelState`, `send`, `getResponse`, `spawnCascade`,
  `listPanels`, `restoreUI`, `mountCustomUI` pipeline) and
* the custom UI shell (`createPanel`, `mount`, `destroyOriginalUI`,
  `stopObserver`, `hideElement`).

The live document is modelled by the `Dom` structure: the list of
`.chat-client-root` conversation panels (each carrying the attributes the
code reads: its inline `display` style, bounding-rect dimensions, the
presence and text of its contenteditable input, and the presence and
className of its `button.rounded-full` submit control), the tab elements,
the auxiliary bar and sidebar elements (present or absent, with their
inline `display`), and the number of `#cascade-hub-ui` replacement roots.
Module-level mutable state of the custom-ui module (the `panelObserver`
variable) and the controller (the `mountedUI` flag) lives in `SysState`,
together with a page-wide count of active MutationObservers.
-/

namespace Cascade

/-- JavaScript `String.prototype.includes`, on explicit character lists. -/
def listContainsSub (l pat : List Char) : Bool :=
  (List.range (l.length + 1)).any (fun i => pat.isPrefixOf (l.drop i))

/-- JavaScript `s.includes(pat)` on Lean strings. -/
def strIncludes (s pat : String) : Bool :=
  listContainsSub s.data pat.data

/-- One `.chat-client-root` conversation panel, carrying exactly the
attributes the controller reads from the live document. -/
structure PanelElem where
  elemId : String
  display : String
  rectW : Nat
  rectH : Nat
  hasInput : Bool
  inputText : String
  hasButton : Bool
  btnClassName : String
deriving Repr, DecidableEq

/-- A tab element (`.tab` or `[role="tab"]`) in the host tab bar. -/
structure TabElem where
  innerText : String
  display : String
deriving Repr, DecidableEq

/-- The live document, restricted to the elements the engine touches. -/
structure Dom where
  panels : List PanelElem
  tabs : List TabElem
  auxBarDisplay : Option String
  sidebarDisplay : Option String
  hubRoots : Nat
deriving Repr, DecidableEq

/-- `rect.width > 0 && rect.height > 0` in `getPanelState`/`listPanels`. -/
def visiblePanel (p : PanelElem) : Bool :=
  decide (0 < p.rectW) && decide (0 < p.rectH)

/-- `btn ? !btn.className.includes('cursor-not-allowed') : false`. -/
def panelButtonEnabled (p : PanelElem) : Bool :=
  p.hasButton && !(strIncludes p.btnClassName ("cursor-not-allowed"))

/-- The record `getPanelState` resolves with: either the error-tagged shape
`{error, totalPanels}` or the full panel-state shape.  Absent JavaScript
fields are modelled as `none`. -/
structure PanelStateRecord where
  error : Option String := none
  index : Option Nat := none
  visible : Option Bool := none
  inputContent : Option String := none
  buttonEnabled : Option Bool := none
  totalPanels : Nat
deriving Repr, DecidableEq

/-- `getPanelState(index)` from the CDP controller: the in-page query over
`document.querySelectorAll('.chat-client-root')`. -/
def getPanelState (dom : Dom) (idx : Nat) : PanelStateRecord :=
  match dom.panels[idx]? with
  | none =>
      { error := some ("Panel " ++ toString idx ++ " not found"),
        totalPanels := dom.panels.length }
  | some p =>
      { index := some idx,
        visible := some (visiblePanel p),
        inputContent := some (if p.hasInput then p.inputText else ""),
        buttonEnabled := some (panelButtonEnabled p),
        totalPanels := dom.panels.length }

/-- One entry of the `listPanels()` result array. -/
structure PanelEntry where
  index : Nat
  id : Option String
  visible : Bool
  inputContent : String
  buttonEnabled : Bool
deriving Repr, DecidableEq

/-- The entry `listPanels` builds for the panel at position `i`
(`panel.id || null`, truncated input text, same visibility and
button-enabled derivations as `getPanelState`). -/
def mkPanelEntry (i : Nat) (p : PanelElem) : PanelEntry :=
  { index := i,
    id := if p.elemId = "" then none else some p.elemId,
    visible := visiblePanel p,
    inputContent := if p.hasInput then p.inputText.take 50 else "",
    buttonEnabled := panelButtonEnabled p }

/-- The `[...panels].map((panel, i) => ...)` traversal of `listPanels`,
with the running index made explicit. -/
def listPanelsGo (i : Nat) : List PanelElem → List PanelEntry
  | [] => []
  | p :: rest => mkPanelEntry i p :: listPanelsGo (i + 1) rest

/-- `listPanels()` from the CDP controller. -/
def listPanels (dom : Dom) : List PanelEntry :=
  listPanelsGo 0 dom.panels

/-- Options of `send(index, message, options)`, with the source defaults. -/
structure SendOptions where
  clear : Bool := true
  submit : Bool := true
deriving Repr, DecidableEq

/-- The result record of `send`: `{sent: true, message}` on success,
`{sent: false, error}` on a locate failure, and
`{sent: false, buttonEnabled, inputContent}` when the submit control is
disabled (or submission was not requested).  Absent fields are `none`. -/
structure SendResult where
  sent : Bool
  message : Option String := none
  error : Option String := none
  buttonEnabled : Option Bool := none
  inputContent : Option String := none
deriving Repr, DecidableEq

/-- The effect of the typing phase of `send` on the target panel: with
`clear` the select-all/backspace sequence empties the input, then the
message is injected character by character at the caret. -/
def typeInto (p : PanelElem) (message : String) (clear : Bool) : PanelElem :=
  { p with inputText := (if clear then "" else p.inputText) ++ message }

/-- `dom` with the panel at position `idx` replaced. -/
def setPanel (dom : Dom) (idx : Nat) (p : PanelElem) : Dom :=
  { dom with panels := dom.panels.set idx p }

/-- `send(index, message, options)` from the CDP controller.  The focus
step fails (and nothing is typed) when the panel or its contenteditable
input cannot be located; otherwise the message is typed and the re-read
panel state decides between submitting and returning the
`{sent:false, buttonEnabled, inputContent}` shape. -/
def send (dom : Dom) (idx : Nat) (message : String) (opts : SendOptions) :
    SendResult × Dom :=
  match dom.panels[idx]? with
  | none => ({ sent := false, error := some ("Panel not found") }, dom)
  | some p =>
      if p.hasInput = false then
        ({ sent := false, error := some ("Input not found") }, dom)
      else
        let p1 := typeInto p message opts.clear
        let dom1 := setPanel dom idx p1
        let st := getPanelState dom1 idx
        if opts.submit && st.buttonEnabled.getD false then
          ({ sent := true, message := some message }, dom1)
        else
          ({ sent := false, buttonEnabled := some (st.buttonEnabled.getD false),
             inputContent := some (st.inputContent.getD "") }, dom1)

/-- The result record of `spawnCascade`. -/
structure SpawnResult where
  spawned : Bool
  beforeCount : Nat
  afterCount : Nat
  newIndex : Nat
deriving Repr, DecidableEq

/-- `spawnCascade()` from the CDP controller: count panels, run the
command-entry sequence (escape, F1, literal command text, enter — its
effect on the host document is the parameter `hostSpawn`), wait, count
panels again, and report `{spawned: after > before, beforeCount,
afterCount, newIndex: 0}`. -/
def spawnCascade (dom : Dom) (hostSpawn : Dom → Dom) : SpawnResult × Dom :=
  let beforeCount := dom.panels.length
  let dom1 := hostSpawn dom
  let afterCount := dom1.panels.length
  ({ spawned := decide (beforeCount < afterCount),
     beforeCount := beforeCount,
     afterCount := afterCount,
     newIndex := 0 }, dom1)

/-- Modelled from the spec (§3 invariant, also asserted by the source
comment "New panels appear at index 0, pushing others down"): the host
application inserts a newly created conversation panel at document
position 0, shifting every existing panel up by one.  The host is not
part of this repository; this definition follows the spec's words. -/
def hostInsertPanel (p : PanelElem) (dom : Dom) : Dom :=
  { dom with panels := p :: dom.panels }

/-- The result record of `getResponse`: `{response, stable: true}` or
`{response, timeout: true}`; the absent boolean is `false`. -/
structure ResponseResult where
  response : String
  stable : Bool := false
  timeout : Bool := false
deriving Repr, DecidableEq

/-- The poll loop of `getResponse`, with time made explicit: `t` is the
elapsed time in milliseconds since the loop started and `transcript u` is
the panel transcript's `innerText` as read at elapsed time `u`.  While
`t < waitMs`: read; if the text changed, remember it and sleep 500 ms (the
quiet duration); else if it is non-empty, return it as stable; else sleep
200 ms and poll again.  When the bound elapses, return the last-read text
tagged as timed out. -/
def getResponseLoop (transcript : Nat → String) (waitMs : Nat)
    (t : Nat) (lastContent : String) : ResponseResult :=
  if h : t < waitMs then
    let content := transcript t
    if content ≠ lastContent then
      getResponseLoop transcript waitMs (t + 500) content
    else if content ≠ "" then
      { response := content, stable := true }
    else
      getResponseLoop transcript waitMs (t + 200) lastContent
  else
    { response := lastContent, timeout := true }
termination_by waitMs - t
decreasing_by all_goals omega

/-- `getResponse(index, waitMs)` from the CDP controller, over the
transcript-read history of the addressed panel. -/
def getResponse (transcript : Nat → String) (waitMs : Nat) : ResponseResult :=
  getResponseLoop transcript waitMs 0 ""

/-- Whole-system state: the document plus the custom-ui module's
`panelObserver` closure variable (`observerTracked`), a page-wide count of
MutationObservers still observing (`observersActive`), and the
controller-side `mountedUI` flag. -/
structure SysState where
  dom : Dom
  observersActive : Nat
  observerTracked : Bool
  mountedUI : Bool
deriving Repr, DecidableEq

/-- `hideElement(el)` from custom-ui: set `display` to `"none"` unless it
already is, and report whether anything changed. -/
def hideElement (display : String) : String × Bool :=
  if display ≠ "none" then ("none", true) else (display, false)

/-- `stopObserver()` from custom-ui: if the module tracks an observer,
disconnect it and forget it. -/
def stopObserver (s : SysState) : SysState :=
  if s.observerTracked then
    { s with observersActive := s.observersActive - 1, observerTracked := false }
  else s

/-- `mount(customUI)` from custom-ui: remove every existing
`#cascade-hub-ui` root, stop any tracked observer, then append the new
root to the body (and register it as the current UI reference). -/
def mount (s : SysState) : SysState :=
  let s1 := { s with dom := { s.dom with hubRoots := 0 } }
  let s2 := stopObserver s1
  { s2 with dom := { s2.dom with hubRoots := s2.dom.hubRoots + 1 } }

/-- Number of hidden-element events when hiding a list of panels. -/
def hidePanels (l : List PanelElem) : List PanelElem × Nat :=
  match l with
  | [] => ([], 0)
  | p :: rest =>
      let r := hideElement p.display
      let rec' := hidePanels rest
      ({ p with display := r.1 } :: rec'.1,
       (if r.2 then 1 else 0) + rec'.2)

/-- Hiding pass over the tab bar: hide every tab whose inner text contains
"Cascade". -/
def hideCascadeTabs (l : List TabElem) : List TabElem × Nat :=
  match l with
  | [] => ([], 0)
  | tb :: rest =>
      let rec' := hideCascadeTabs rest
      if strIncludes tb.innerText ("Cascade") then
        let r := hideElement tb.display
        ({ tb with display := r.1 } :: rec'.1,
         (if r.2 then 1 else 0) + rec'.2)
      else
        (tb :: rec'.1, rec'.2)

/-- `destroyOriginalUI()` from custom-ui: hide all `.chat-client-root`
panels, hide the auxiliary bar (`workbench.parts.auxiliarybar`) if
present, hide the Cascade tabs, and — if this module instance does not
already track a MutationObserver — create and start one watching the whole
body subtree.  Returns the updated state and the `{hidden}` count. -/
def destroyOriginalUI (s : SysState) : SysState × Nat :=
  let hp := hidePanels s.dom.panels
  let hAux : Option String × Nat :=
    match s.dom.auxBarDisplay with
    | some d => let r := hideElement d; (some r.1, if r.2 then 1 else 0)
    | none => (none, 0)
  let ht := hideCascadeTabs s.dom.tabs
  let hiddenCount := hp.2 + hAux.2 + ht.2
  let s1 := { s with dom := { s.dom with panels := hp.1, auxBarDisplay := hAux.1, tabs := ht.1 } }
  let s2 :=
    if s1.observerTracked then s1
    else { s1 with observerTracked := true, observersActive := s1.observersActive + 1 }
  (s2, hiddenCount)

/-- The DOM-effect of the `mountCustomUI()` pipeline of the controller:
extraction (read-only), `createUI` (in-memory), `mount`, handler wiring
(no relevant document mutation), `destroyOriginalUI`, and recording the
controller-side mount status. -/
def mountCustomUI (s : SysState) : SysState :=
  let s1 := mount s
  let s2 := (destroyOriginalUI s1).1
  { s2 with mountedUI := true }

/-- `restoreUI()` from the CDP controller: a no-op `{restored:false}` when
not mounted; otherwise remove the `#cascade-hub-ui` element, clear the
inline `display` of every `.chat-client-root` panel and of the `.sidebar`
element, clear the controller's mount status, and report
`{restored:true}`.  (It touches nothing else: not the observer, not the
auxiliary bar, not the tabs.) -/
def restoreUI (s : SysState) : SysState × Bool :=
  if s.mountedUI then
    let dom1 :=
      { s.dom with
        hubRoots := s.dom.hubRoots - 1,
        panels := s.dom.panels.map (fun p => { p with display := "" }),
        sidebarDisplay := s.dom.sidebarDisplay.map (fun _ => "") }
    ({ s with dom := dom1, mountedUI := false }, true)
  else
    (s, false)

/-- One extracted chat turn, as produced by the extraction engine
(`role` from class/ARIA heuristics, `content` from `innerText`, `html`
from `innerHTML`, best-effort timestamp). -/
structure Message where
  role : String
  content : String
  html : String
  timestamp : Nat
deriving Repr, DecidableEq

/-- One extracted Conversation snapshot for a panel. -/
structure Conversation where
  messages : List Message
  fullText : String
  fullHTML : String
  inputContent : String
deriving Repr, DecidableEq

/-- The content of a message block in the replacement UI tree.
`textNode s` is a literal text node as produced by a `textContent`
assignment: the string is displayed verbatim.  `markupNode raw` is
content inserted via an `innerHTML` assignment, which the document would
parse as markup.  The builder in the source only ever assigns
`textContent`, so it only produces `textNode` children. -/
inductive VNode where
  | textNode (s : String)
  | markupNode (raw : String)
deriving Repr, DecidableEq

/-- One message block of a replacement sub-panel's conversation area:
its role-derived styling and its single child node. -/
structure MsgBlock where
  background : String
  borderColor : String
  child : VNode
deriving Repr, DecidableEq

/-- The block `createPanel` appends for one message: role-based styling
(`msg.role === 'user'`) and `msgEl.textContent = msg.content`. -/
def mkMsgBlock (m : Message) : MsgBlock :=
  { background := if m.role = "user" then "rgba(0,212,255,0.1)" else "rgba(255,255,255,0.05)",
    borderColor := if m.role = "user" then "#00d4ff" else "#888",
    child := VNode.textNode m.content }

/-- The placeholder block rendered for an empty conversation. -/
def emptyConversationBlock : MsgBlock :=
  { background := "", borderColor := "",
    child := VNode.textNode ("No messages yet. Start a conversation below.") }

/-- One replacement sub-panel as built by `createPanel(conversation,
index, extraction)`: header title, the conversation-area message blocks,
and the compose input seeded from the snapshot. -/
structure CustomPanel where
  headerTitle : String
  msgBlocks : List MsgBlock
  inputText : String
deriving Repr, DecidableEq

/-- `createPanel` from custom-ui (the parts that render snapshot data). -/
def createPanel (conversation : Conversation) (index : Nat) : CustomPanel :=
  { headerTitle := "Panel " ++ toString index,
    msgBlocks :=
      if conversation.messages.isEmpty then [emptyConversationBlock]
      else conversation.messages.map mkMsgBlock,
    inputText := conversation.inputContent }

/-! Concrete fixtures used by witnesses and counterexamples. -/

/-- A healthy panel: visible, with input text and an enabled submit control. -/
def wPanel : PanelElem :=
  { elemId := "p0", display := "", rectW := 100, rectH := 200,
    hasInput := true, inputText := "draft", hasButton := true,
    btnClassName := "rounded-full" }

/-- A panel whose submit control is absent from the document. -/
def wPanelNoBtn : PanelElem :=
  { elemId := "", display := "", rectW := 100, rectH := 200,
    hasInput := true, inputText := "", hasButton := false,
    btnClassName := "" }

/-- A panel whose submit control carries the disabled marker. -/
def wPanelDisabled : PanelElem :=
  { elemId := "", display := "", rectW := 100, rectH := 200,
    hasInput := true, inputText := "", hasButton := true,
    btnClassName := "rounded-full cursor-not-allowed" }

/-- A panel with no contenteditable input. -/
def wPanelNoInput : PanelElem :=
  { elemId := "", display := "", rectW := 0, rectH := 0,
    hasInput := false, inputText := "", hasButton := false,
    btnClassName := "" }

/-- A one-panel document. -/
def wDom : Dom :=
  { panels := [wPanel], tabs := [], auxBarDisplay := none,
    sidebarDisplay := none, hubRoots := 0 }

/-- A document whose single panel has no submit control. -/
def wDomNoBtn : Dom :=
  { panels := [wPanelNoBtn], tabs := [], auxBarDisplay := none,
    sidebarDisplay := none, hubRoots := 0 }

/-- A document whose single panel has a disabled submit control. -/
def wDomDisabled : Dom :=
  { panels := [wPanelDisabled], tabs := [], auxBarDisplay := none,
    sidebarDisplay := none, hubRoots := 0 }

/-- A pre-takeover system state with a visible Cascade tab, a visible
auxiliary bar, and a visible sidebar. -/
def cexState : SysState :=
  { dom :=
      { panels := [wPanel],
        tabs := [{ innerText := "Cascade", display := "" }],
        auxBarDisplay := some "",
        sidebarDisplay := some "",
        hubRoots := 0 },
    observersActive := 0, observerTracked := false, mountedUI := false }

/-- A two-message conversation snapshot containing an attacker-controlled
markup string captured from the host document. -/
def wConversation : Conversation :=
  { messages :=
      [{ role := "user", content := "hi",
         html := "<p>hi</p>", timestamp := 1 },
       { role := "assistant", content := "hello",
         html := "<p>hello</p>", timestamp := 2 },
       { role := "assistant", content := "<img onerror=alert(1) src=x>",
         html := "<img onerror=alert(1) src=x>", timestamp := 3 }],
    fullText := "hi hello", fullHTML := "<div>hi hello</div>",
    inputContent := "" }

/-- A transcript history that changes at every read (strictly growing). -/
def wGrowingTranscript (u : Nat) : String :=
  String.mk (List.replicate u 'a')

/-! Helper lemmas. -/

theorem listPanelsGo_length (i : Nat) (l : List PanelElem) :
    (listPanelsGo i l).length = l.length := by
  induction l generalizing i with
  | nil => rfl
  | cons p rest ih => simp [listPanelsGo, ih]

theorem listPanelsGo_get (l : List PanelElem) (i k : Nat)
    (hk : k < (listPanelsGo i l).length) (hk2 : k < l.length) :
    (listPanelsGo i l).get ⟨k, hk⟩ = mkPanelEntry (i + k) (l.get ⟨k, hk2⟩) := by
  induction l generalizing i k with
  | nil => exact absurd hk2 (by simp)
  | cons p rest ih =>
      cases k with
      | zero => simp [listPanelsGo]
      | succ k =>
          simp only [listPanelsGo, List.get_cons_succ]
          rw [ih]
          congr 1
          omega

theorem hidePanels_length (l : List PanelElem) :
    (hidePanels l).1.length = l.length := by
  induction l with
  | nil => rfl
  | cons p rest ih => simp [hidePanels, ih]

theorem map_display_clear (l : List PanelElem) :
    (l.map (fun p => ({ p with display := "" } : PanelElem))).map PanelElem.display
      = List.replicate l.length "" := by
  induction l with
  | nil => rfl
  | cons p rest ih => simp [ih, List.replicate_succ]

/-- After the `mountCustomUI` pipeline (assuming the only page observer is
the one the module tracks): exactly one replacement root, exactly one
active observer (tracked), mount status set, and the panel list's length
is unchanged. -/
theorem mountCustomUI_state (s : SysState)
    (hobs : s.observersActive = (if s.observerTracked then 1 else 0)) :
    (mountCustomUI s).dom.hubRoots = 1 ∧
    (mountCustomUI s).observersActive = 1 ∧
    (mountCustomUI s).observerTracked = true ∧
    (mountCustomUI s).mountedUI = true ∧
    (mountCustomUI s).dom.panels.length = s.dom.panels.length := by
  by_cases ht : s.observerTracked <;>
    simp [mountCustomUI, mount, stopObserver, destroyOriginalUI, ht, hobs,
      hidePanels_length]

/-- One unfolding of the poll loop: text changed, remember and wait. -/
theorem getResponseLoop_eq_change (transcript : Nat → String) (waitMs t : Nat)
    (last : String) (ht : t < waitMs) (hc : transcript t ≠ last) :
    getResponseLoop transcript waitMs t last =
      getResponseLoop transcript waitMs (t + 500) (transcript t) := by
  rw [getResponseLoop.eq_def]
  rw [dif_pos ht]
  simp only []
  rw [if_pos hc]

/-- One unfolding of the poll loop: text unchanged and non-empty, return
it as stable. -/
theorem getResponseLoop_eq_stable (transcript : Nat → String) (waitMs t : Nat)
    (last : String) (ht : t < waitMs) (hc : transcript t = last)
    (hne : transcript t ≠ "") :
    getResponseLoop transcript waitMs t last =
      { response := transcript t, stable := true } := by
  rw [getResponseLoop.eq_def]
  rw [dif_pos ht]
  simp only []
  rw [if_neg (not_not_intro hc), if_pos hne]

/-- One unfolding of the poll loop: text unchanged but empty, poll again. -/
theorem getResponseLoop_eq_empty (transcript : Nat → String) (waitMs t : Nat)
    (last : String) (ht : t < waitMs) (hc : transcript t = last)
    (he : transcript t = "") :
    getResponseLoop transcript waitMs t last =
      getResponseLoop transcript waitMs (t + 200) last := by
  rw [getResponseLoop.eq_def]
  rw [dif_pos ht]
  simp only []
  rw [if_neg (not_not_intro hc), if_neg (not_not_intro he)]

/-- One unfolding of the poll loop: the overall bound has elapsed, return
the last-read text tagged as timed out. -/
theorem getResponseLoop_eq_timeout (transcript : Nat → String) (waitMs t : Nat)
    (last : String) (ht : ¬ t < waitMs) :
    getResponseLoop transcript waitMs t last =
      { response := last, timeout := true } := by
  rw [getResponseLoop.eq_def]
  rw [dif_neg ht]

/-- A strictly growing transcript differs between any two read times. -/
theorem wGrowingTranscript_strict :
    ∀ u v, u < v → wGrowingTranscript u ≠ wGrowingTranscript v := by
  intro u v huv h
  have h2 := congrArg (fun s => s.data.length) h
  simp [wGrowingTranscript] at h2
  omega

/-! Claim theorems. -/

/-- Claim C7: for every index out of the current panel range,
`getPanelState` returns normally (it is a total function) with the
`PanelNotFoundError` signaled as an error field together with the
`totalPanels` count; for every index in range it returns the panel's
state (index, visible, inputContent, buttonEnabled) with the added
`totalPanels` count. -/
theorem getPanelState_contract (dom : Dom) (idx : Nat) :
    (dom.panels.length ≤ idx →
      getPanelState dom idx =
        { error := some ("Panel " ++ toString idx ++ " not found"),
          totalPanels := dom.panels.length }) ∧
    (∀ h : idx < dom.panels.length,
      getPanelState dom idx =
        { index := some idx,
          visible := some (visiblePanel (dom.panels.get ⟨idx, h⟩)),
          inputContent := some (if (dom.panels.get ⟨idx, h⟩).hasInput
            then (dom.panels.get ⟨idx, h⟩).inputText else ""),
          buttonEnabled := some (panelButtonEnabled (dom.panels.get ⟨idx, h⟩)),
          totalPanels := dom.panels.length }) := by
  constructor
  · intro hle
    unfold getPanelState
    rw [List.getElem?_eq_none hle]
  · intro h
    unfold getPanelState
    rw [List.getElem?_eq_getElem h]
    simp

/-- Witness for C7 at a concrete one-panel document: index 5 is out of
range and reported as an error field, index 0 is in range. -/
theorem getPanelState_contract_witness :
    (wDom.panels.length ≤ 5 ∧
      getPanelState wDom 5 =
        { error := some ("Panel 5 not found"), totalPanels := 1 }) ∧
    (0 < wDom.panels.length ∧
      getPanelState wDom 0 =
        { index := some 0, visible := some true,
          inputContent := some "draft", buttonEnabled := some true,
          totalPanels := 1 }) := by
  refine ⟨⟨by decide, ?_⟩, ⟨by decide, ?_⟩⟩
  · have h := (getPanelState_contract wDom 5).1 (by decide)
    simpa using h
  · have h := (getPanelState_contract wDom 0).2 (by decide)
    simpa [wDom, wPanel, visiblePanel, panelButtonEnabled] using h

/-- Claim C8: `listPanels()` never fails (it is a total function): on a
document with `n` panels it returns exactly `n` entries, the entry at
position `i` is derived from the panel at document position `i` and
carries `index = i`, and the result is empty when there are no panels. -/
theorem listPanels_contract (dom : Dom) :
    (listPanels dom).length = dom.panels.length ∧
    (∀ (i : Nat) (h : i < (listPanels dom).length)
       (h2 : i < dom.panels.length),
       (listPanels dom).get ⟨i, h⟩ = mkPanelEntry i (dom.panels.get ⟨i, h2⟩) ∧
       ((listPanels dom).get ⟨i, h⟩).index = i) ∧
    (dom.panels = [] → listPanels dom = []) := by
  refine ⟨listPanelsGo_length 0 dom.panels, ?_, ?_⟩
  · intro i h h2
    have hg := listPanelsGo_get dom.panels 0 i h h2
    rw [Nat.zero_add] at hg
    refine ⟨hg, ?_⟩
    have hidx := congrArg PanelEntry.index hg
    simpa [mkPanelEntry] using hidx
  · intro h
    simp [listPanels, h, listPanelsGo]

/-- Witness for C8 at a concrete one-panel document: one entry, whose
index field is 0 and which is derived from the panel in document order. -/
theorem listPanels_contract_witness :
    (listPanels wDom).length = 1 ∧
    (0 : Nat) < (listPanels wDom).length ∧
    (listPanels wDom).get ⟨0, by decide⟩ = mkPanelEntry 0 wPanel ∧
    ((listPanels wDom).get ⟨0, by decide⟩).index = 0 := by
  have h := (listPanels_contract wDom).2.1 0 (by decide) (by decide)
  exact ⟨by decide, by decide, h.1, h.2⟩

/-- Claim C10: for a panel whose submit control is absent, both
`getPanelState` and `listPanels` report `buttonEnabled = false` — absence
of the submit control is a disabled submit, not an error and not a
missing field. -/
theorem buttonAbsent_reportedDisabled (dom : Dom) (idx : Nat) (p : PanelElem)
    (hp : dom.panels[idx]? = some p) (hb : p.hasButton = false) :
    (getPanelState dom idx).buttonEnabled = some false ∧
    (getPanelState dom idx).error = none ∧
    ∀ h : idx < (listPanels dom).length,
      ((listPanels dom).get ⟨idx, h⟩).buttonEnabled = false := by
  refine ⟨?_, ?_, ?_⟩
  · unfold getPanelState
    rw [hp]
    simp [panelButtonEnabled, hb]
  · unfold getPanelState
    rw [hp]
  · intro h
    have h2 : idx < dom.panels.length := by
      have := listPanelsGo_length 0 dom.panels
      simpa [listPanels, this] using h
    have hg := listPanelsGo_get dom.panels 0 idx h h2
    rw [Nat.zero_add] at hg
    have hpe : dom.panels[idx] = p := by
      rw [List.getElem?_eq_getElem h2] at hp
      exact Option.some.inj hp
    have hbtn := congrArg PanelEntry.buttonEnabled hg
    refine hbtn.trans ?_
    simp [mkPanelEntry, List.get_eq_getElem, hpe, panelButtonEnabled, hb]

/-- Witness for C10 at a concrete document whose single panel has no
submit control. -/
theorem buttonAbsent_reportedDisabled_witness :
    wDomNoBtn.panels[0]? = some wPanelNoBtn ∧
    wPanelNoBtn.hasButton = false ∧
    (getPanelState wDomNoBtn 0).buttonEnabled = some false ∧
    (getPanelState wDomNoBtn 0).error = none ∧
    ((listPanels wDomNoBtn).get ⟨0, by decide⟩).buttonEnabled = false := by
  have h := buttonAbsent_reportedDisabled wDomNoBtn 0 wPanelNoBtn (by decide) (by decide)
  exact ⟨by decide, by decide, h.1, h.2.1, h.2.2 (by decide)⟩

/-- Claim C9: `spawnCascade` reports `spawned = true` exactly when the
panel count observed after the command-entry sequence exceeds the count
observed before, reports the new panel's index as 0, and reports both
counts.  Under the spec-modelled host behavior (insertion at document
position 0), the spawn is reported, the new panel is the entry at index 0
of a subsequent `listPanels`, and every previous panel `i` is now the
entry at index `i + 1`. -/
theorem spawnCascade_contract (dom : Dom) (hostSpawn : Dom → Dom) (p : PanelElem) :
    ((spawnCascade dom hostSpawn).1 =
      { spawned := decide (dom.panels.length < (hostSpawn dom).panels.length),
        beforeCount := dom.panels.length,
        afterCount := (hostSpawn dom).panels.length,
        newIndex := 0 }) ∧
    ((spawnCascade dom (hostInsertPanel p)).1.spawned = true ∧
     (spawnCascade dom (hostInsertPanel p)).1.newIndex = 0 ∧
     (spawnCascade dom (hostInsertPanel p)).1.beforeCount = dom.panels.length ∧
     (spawnCascade dom (hostInsertPanel p)).1.afterCount = dom.panels.length + 1) ∧
    (∀ h : 0 < (listPanels (hostInsertPanel p dom)).length,
       (listPanels (hostInsertPanel p dom)).get ⟨0, h⟩ = mkPanelEntry 0 p) ∧
    (∀ (i : Nat) (h : i + 1 < (listPanels (hostInsertPanel p dom)).length)
       (h2 : i < dom.panels.length),
       (listPanels (hostInsertPanel p dom)).get ⟨i + 1, h⟩ =
         mkPanelEntry (i + 1) (dom.panels.get ⟨i, h2⟩)) := by
  refine ⟨rfl, ?_, ?_, ?_⟩
  · simp [spawnCascade, hostInsertPanel]
  · intro h
    rfl
  · intro i h h2
    have hk2 : i < dom.panels.length := h2
    have hk : i < (listPanelsGo 1 dom.panels).length := by
      rw [listPanelsGo_length]; exact hk2
    have hg := listPanelsGo_get dom.panels 1 i hk hk2
    have hstep :
        (listPanels (hostInsertPanel p dom)).get ⟨i + 1, h⟩ =
          (listPanelsGo 1 dom.panels).get ⟨i, hk⟩ := by
      simp [listPanels, hostInsertPanel, listPanelsGo]
    rw [hstep, hg]
    congr 1
    omega

/-- Witness for C9: spawning over a concrete one-panel document reports
`{spawned := true, beforeCount := 1, afterCount := 2, newIndex := 0}`,
the new panel becomes entry 0, and the old panel 0 becomes entry 1. -/
theorem spawnCascade_contract_witness :
    (spawnCascade wDom (hostInsertPanel wPanelNoBtn)).1.spawned = true ∧
    (spawnCascade wDom (hostInsertPanel wPanelNoBtn)).1.newIndex = 0 ∧
    (spawnCascade wDom (hostInsertPanel wPanelNoBtn)).1.beforeCount = 1 ∧
    (spawnCascade wDom (hostInsertPanel wPanelNoBtn)).1.afterCount = 2 ∧
    (listPanels (hostInsertPanel wPanelNoBtn wDom)).get ⟨0, by decide⟩ =
      mkPanelEntry 0 wPanelNoBtn ∧
    (listPanels (hostInsertPanel wPanelNoBtn wDom)).get ⟨1, by decide⟩ =
      mkPanelEntry 1 wPanel := by
  have h := spawnCascade_contract wDom (hostInsertPanel wPanelNoBtn) wPanelNoBtn
  exact ⟨h.2.1.1, h.2.1.2.1, h.2.1.2.2.1, h.2.1.2.2.2,
    h.2.2.1 (by decide), h.2.2.2 0 (by decide) (by decide)⟩

/-- Claim C6: `send` never raises on its failure paths.  When the target
panel or its compose surface cannot be located it returns
`{sent: false, error}` and injects no input (the document is unchanged);
when the submit control remains disabled after typing it returns
`{sent: false, buttonEnabled, inputContent}`. -/
theorem send_failure_contract (dom : Dom) (idx : Nat) (message : String)
    (opts : SendOptions) :
    (dom.panels[idx]? = none →
      send dom idx message opts =
        ({ sent := false, error := some ("Panel not found") }, dom)) ∧
    (∀ p, dom.panels[idx]? = some p → p.hasInput = false →
      send dom idx message opts =
        ({ sent := false, error := some ("Input not found") }, dom)) ∧
    (∀ p, dom.panels[idx]? = some p → p.hasInput = true →
      panelButtonEnabled (typeInto p message opts.clear) = false →
      (send dom idx message opts).1 =
        { sent := false, buttonEnabled := some false,
          inputContent := some ((typeInto p message opts.clear).inputText) }) := by
  refine ⟨?_, ?_, ?_⟩
  · intro hnone
    unfold send
    rw [hnone]
  · intro p hp hin
    unfold send
    rw [hp]
    simp [hin]
  · intro p hp hin hbe
    have hlt : idx < dom.panels.length := by
      rcases List.getElem?_eq_some.mp hp with ⟨h, _⟩
      exact h
    have hset : (dom.panels.set idx (typeInto p message opts.clear))[idx]? =
        some (typeInto p message opts.clear) :=
      List.getElem?_set_self hlt
    have hst : getPanelState (setPanel dom idx (typeInto p message opts.clear)) idx =
        { index := some idx,
          visible := some (visiblePanel (typeInto p message opts.clear)),
          inputContent := some ((typeInto p message opts.clear).inputText),
          buttonEnabled := some false,
          totalPanels := dom.panels.length } := by
      unfold getPanelState setPanel
      simp only []
      rw [hset]
      have hin2 : (typeInto p message opts.clear).hasInput = true := hin
      simp [hin2, hbe, List.length_set]
    unfold send
    rw [hp]
    simp only [hin, if_neg, Bool.true_eq_false, ite_false, reduceIte]
    rw [hst]
    simp

/-- Witness for C6 at concrete documents: a missing panel yields
`{sent:false, error}` with the document unchanged, a missing compose
surface likewise, and a disabled submit control after typing yields
`{sent:false, buttonEnabled := false, inputContent}`. -/
theorem send_failure_contract_witness :
    (send wDom 3 "ping" {} =
      ({ sent := false, error := some ("Panel not found") }, wDom)) ∧
    (send { panels := [wPanelNoInput], tabs := [], auxBarDisplay := none,
            sidebarDisplay := none, hubRoots := 0 } 0 "ping" {} =
      ({ sent := false, error := some ("Input not found") },
       { panels := [wPanelNoInput], tabs := [], auxBarDisplay := none,
         sidebarDisplay := none, hubRoots := 0 })) ∧
    ((send wDomDisabled 0 "ping" {}).1 =
      { sent := false, buttonEnabled := some false,
        inputContent := some "ping" }) := by
  refine ⟨?_, ?_, ?_⟩
  · exact (send_failure_contract wDom 3 "ping" {}).1 (by decide)
  · exact (send_failure_contract _ 0 "ping" {}).2.1 wPanelNoInput (by decide) (by decide)
  · have h := (send_failure_contract wDomDisabled 0 "ping" {}).2.2 wPanelDisabled
      (by decide) (by decide) (by decide)
    simpa [typeInto, wPanelDisabled] using h

/-- Claim C3: the replacement sub-panel built from an extraction snapshot
renders one message block per message, styled by role, whose content is a
literal text node carrying exactly the message's extracted plain text;
the raw markup captured at extraction (`html`, `fullHTML`) is never
re-inserted — the output is invariant under scrubbing it — so an
attacker-controlled string appears as literal text, never as parsed
markup. -/
theorem createPanel_rendersPlainText (conversation : Conversation) (index : Nat)
    (hne : conversation.messages ≠ []) :
    ((createPanel conversation index).msgBlocks.length =
      conversation.messages.length) ∧
    (∀ (i : Nat) (h : i < (createPanel conversation index).msgBlocks.length)
       (h2 : i < conversation.messages.length),
       ((createPanel conversation index).msgBlocks.get ⟨i, h⟩).child =
         VNode.textNode ((conversation.messages.get ⟨i, h2⟩).content) ∧
       ((createPanel conversation index).msgBlocks.get ⟨i, h⟩).borderColor =
         (if (conversation.messages.get ⟨i, h2⟩).role = "user"
           then "#00d4ff" else "#888") ∧
       ((createPanel conversation index).msgBlocks.get ⟨i, h⟩).background =
         (if (conversation.messages.get ⟨i, h2⟩).role = "user"
           then "rgba(0,212,255,0.1)" else "rgba(255,255,255,0.05)")) ∧
    (createPanel conversation index =
      createPanel
        { conversation with
          messages := conversation.messages.map (fun m => { m with html := "" }),
          fullHTML := "" } index) := by
  have hne2 : conversation.messages.isEmpty = false := by
    cases hcm : conversation.messages with
    | nil => exact absurd hcm hne
    | cons a l => simp
  refine ⟨?_, ?_, ?_⟩
  · simp [createPanel, hne2]
  · intro i h h2
    have hblocks : (createPanel conversation index).msgBlocks =
        conversation.messages.map mkMsgBlock := by
      simp [createPanel, hne2]
    refine ⟨?_, ?_, ?_⟩ <;>
      simp [List.get_eq_getElem, hblocks, List.getElem_map, mkMsgBlock]
  · unfold createPanel
    have hmapempty :
        (conversation.messages.map (fun m =>
          ({ m with html := "" } : Message))).isEmpty =
          conversation.messages.isEmpty := by
      cases conversation.messages <;> simp
    simp only [hmapempty, List.map_map]
    have hcomp :
        (mkMsgBlock ∘ fun m => ({ m with html := "" } : Message)) = mkMsgBlock := by
      funext m
      rfl
    rw [hcomp]

/-- Witness for C3 at a concrete snapshot holding "hi"/"hello" and an
attacker-controlled markup string: three blocks, role styling, and the
attacker string rendered as a literal text node. -/
theorem createPanel_rendersPlainText_witness :
    (createPanel wConversation 0).msgBlocks.length = 3 ∧
    ((createPanel wConversation 0).msgBlocks.get ⟨0, by decide⟩).child =
      VNode.textNode "hi" ∧
    ((createPanel wConversation 0).msgBlocks.get ⟨0, by decide⟩).borderColor =
      "#00d4ff" ∧
    ((createPanel wConversation 0).msgBlocks.get ⟨1, by decide⟩).child =
      VNode.textNode "hello" ∧
    ((createPanel wConversation 0).msgBlocks.get ⟨1, by decide⟩).borderColor =
      "#888" ∧
    ((createPanel wConversation 0).msgBlocks.get ⟨2, by decide⟩).child =
      VNode.textNode "<img onerror=alert(1) src=x>" := by
  have h := createPanel_rendersPlainText wConversation 0 (by decide)
  have h0 := h.2.1 0 (by decide) (by decide)
  have h1 := h.2.1 1 (by decide) (by decide)
  have h2 := h.2.1 2 (by decide) (by decide)
  refine ⟨h.1, ?_, ?_, ?_, ?_, ?_⟩
  · simpa [wConversation] using h0.1
  · simpa [wConversation] using h0.2.1
  · simpa [wConversation] using h1.1
  · simpa [wConversation] using h1.2.1
  · simpa [wConversation] using h2.1

/-- Claim C2: mount is idempotent.  Starting from any state whose only
page observer is the one the custom-ui module tracks (if any), one run of
the mount pipeline — which first removes any prior replacement root and
disconnects any prior watcher before inserting the new root and (in
`destroyOriginalUI`) starting the watcher — leaves exactly one
`#cascade-hub-ui` root and exactly one active Dynamic Panel Watcher, and
a second run in a row leaves exactly one of each again (no duplicate
subscriptions). -/
theorem mount_idempotent (s : SysState)
    (hobs : s.observersActive = (if s.observerTracked then 1 else 0)) :
    ((mountCustomUI s).dom.hubRoots = 1 ∧
     (mountCustomUI s).observersActive = 1 ∧
     (mountCustomUI s).observerTracked = true) ∧
    ((mountCustomUI (mountCustomUI s)).dom.hubRoots = 1 ∧
     (mountCustomUI (mountCustomUI s)).observersActive = 1 ∧
     (mountCustomUI (mountCustomUI s)).observerTracked = true) := by
  have h1 := mountCustomUI_state s hobs
  have hobs2 : (mountCustomUI s).observersActive =
      (if (mountCustomUI s).observerTracked then 1 else 0) := by
    rw [h1.2.1, h1.2.2.1]
    simp
  have h2 := mountCustomUI_state (mountCustomUI s) hobs2
  exact ⟨⟨h1.1, h1.2.1, h1.2.2.1⟩, ⟨h2.1, h2.2.1, h2.2.2.1⟩⟩

/-- Witness for C2 at the concrete pre-takeover state: after mounting
twice in a row there is exactly one replacement root and one active
watcher. -/
theorem mount_idempotent_witness :
    cexState.observersActive = (if cexState.observerTracked then 1 else 0) ∧
    (mountCustomUI (mountCustomUI cexState)).dom.hubRoots = 1 ∧
    (mountCustomUI (mountCustomUI cexState)).observersActive = 1 ∧
    (mountCustomUI (mountCustomUI cexState)).observerTracked = true := by
  have h := mount_idempotent cexState (by decide)
  exact ⟨by decide, h.2.1, h.2.2.1, h.2.2.2⟩

/-- Counterexample for claim C1 (the claim is false as stated): from a
pre-takeover state with a visible Cascade tab, a visible auxiliary bar
and no observer, mounting and then calling the unmount operation
`restoreUI` does NOT disconnect the Dynamic Panel Watcher (one observer
remains active), does NOT restore the auxiliary bar (it stays
`display:none`), and does NOT restore the hidden Cascade tab. -/
theorem restoreUI_not_full_reversal_cex :
    ¬ (((restoreUI (mountCustomUI cexState)).1.observersActive = 0) ∧
       ((restoreUI (mountCustomUI cexState)).1.dom.auxBarDisplay = some "") ∧
       (∀ tb ∈ (restoreUI (mountCustomUI cexState)).1.dom.tabs,
         tb.display = "")) := by
  decide

/-- Claim C1 as amended: `restoreUI` reverses only part of mount's
visible effects.  For every pre-takeover state (whose only page observer
is the module-tracked one, if any), after `mountCustomUI` then
`restoreUI`: the call reports `restored`, no replacement root remains,
every conversation panel's inline display is cleared (made visible
again), and the `.sidebar` element's display is cleared — but the Dynamic
Panel Watcher is left connected (still exactly one active observer), and
the auxiliary bar and the hidden Cascade tabs are left exactly as mount
left them (hidden). -/
theorem restoreUI_partial_reversal (s : SysState)
    (hobs : s.observersActive = (if s.observerTracked then 1 else 0)) :
    ((restoreUI (mountCustomUI s)).2 = true) ∧
    ((restoreUI (mountCustomUI s)).1.dom.hubRoots = 0) ∧
    ((restoreUI (mountCustomUI s)).1.dom.panels.map PanelElem.display =
      List.replicate s.dom.panels.length "") ∧
    ((restoreUI (mountCustomUI s)).1.dom.sidebarDisplay =
      s.dom.sidebarDisplay.map (fun _ => "")) ∧
    ((restoreUI (mountCustomUI s)).1.observersActive = 1) ∧
    ((restoreUI (mountCustomUI s)).1.observerTracked = true) ∧
    ((restoreUI (mountCustomUI s)).1.dom.auxBarDisplay =
      (mountCustomUI s).dom.auxBarDisplay) ∧
    ((restoreUI (mountCustomUI s)).1.dom.tabs =
      (mountCustomUI s).dom.tabs) := by
  have hm := mountCustomUI_state s hobs
  have hmount : (mountCustomUI s).mountedUI = true := hm.2.2.2.1
  have hrestore : restoreUI (mountCustomUI s) =
      ({ mountCustomUI s with
          dom :=
            { (mountCustomUI s).dom with
              hubRoots := (mountCustomUI s).dom.hubRoots - 1,
              panels := (mountCustomUI s).dom.panels.map
                (fun p => { p with display := "" }),
              sidebarDisplay := (mountCustomUI s).dom.sidebarDisplay.map
                (fun _ => "") },
          mountedUI := false }, true) := by
    unfold restoreUI
    rw [hmount]
    simp
  refine ⟨?_, ?_, ?_, ?_, ?_, ?_, ?_, ?_⟩
  · rw [hrestore]
  · rw [hrestore]
    simp [hm.1]
  · rw [hrestore]
    simp only []
    rw [map_display_clear]
    rw [hm.2.2.2.2]
  · rw [hrestore]
    simp only []
    have : (mountCustomUI s).dom.sidebarDisplay = s.dom.sidebarDisplay := by
      by_cases ht : s.observerTracked <;>
        simp [mountCustomUI, mount, stopObserver, destroyOriginalUI, ht]
    rw [this]
  · rw [hrestore]
    exact hm.2.1
  · rw [hrestore]
    exact hm.2.2.1
  · rw [hrestore]
  · rw [hrestore]

/-- Witness for the amended C1 at the concrete pre-takeover state:
restoration is reported, no replacement root remains, the panel and the
sidebar are visible again, while one watcher stays active and the
auxiliary bar and Cascade tab stay hidden. -/
theorem restoreUI_partial_reversal_witness :
    cexState.observersActive = (if cexState.observerTracked then 1 else 0) ∧
    (restoreUI (mountCustomUI cexState)).2 = true ∧
    (restoreUI (mountCustomUI cexState)).1.dom.hubRoots = 0 ∧
    (restoreUI (mountCustomUI cexState)).1.dom.panels.map PanelElem.display =
      List.replicate 1 "" ∧
    (restoreUI (mountCustomUI cexState)).1.observersActive = 1 ∧
    (restoreUI (mountCustomUI cexState)).1.dom.auxBarDisplay =
      (mountCustomUI cexState).dom.auxBarDisplay := by
  have h := restoreUI_partial_reversal cexState (by decide)
  exact ⟨by decide, h.1, h.2.1, h.2.2.1, h.2.2.2.2.1, h.2.2.2.2.2.2.1⟩

/-- Counterexample for claim C4 (the claim is false as stated): with a
transcript that is the empty string at every read — so the text is
unchanged for far longer than the 500 ms quiet duration well before the
1000 ms bound — `getResponse` does NOT return it marked stable; it polls
until the bound elapses and returns a timeout.  The "regardless of the
transcript's content" part of the claim fails for empty text. -/
theorem getResponse_stable_claim_cex :
    getResponse (fun _ => "") 1000 =
      { response := "", stable := false, timeout := true } ∧
    ¬ (getResponse (fun _ => "") 1000).stable = true := by
  have h : getResponse (fun _ => "") 1000 =
      { response := "", stable := false, timeout := true } := by
    simp [getResponse, getResponseLoop]
  exact ⟨h, by rw [h]; simp⟩

/-- Claim C4 as amended: from any reachable poll-loop state, once the
transcript text is unchanged from the current poll time onward, that text
is non-empty, and the quiet duration still fits within the overall bound,
`getResponse`'s poll loop returns that text marked `stable:true`.  (The
non-emptiness proviso is forced by the counterexample: an empty stable
transcript is polled until timeout instead.) -/
theorem getResponse_stable_contract (transcript : Nat → String) (c : String)
    (waitMs t : Nat) (last : String)
    (hconst : ∀ u, t ≤ u → transcript u = c) (hne : c ≠ "")
    (hbudget : t + 500 < waitMs) :
    getResponseLoop transcript waitMs t last =
      { response := c, stable := true, timeout := false } := by
  have ht : t < waitMs := by omega
  have hct : transcript t = c := hconst t le_rfl
  by_cases hlast : transcript t = last
  · have hne2 : transcript t ≠ "" := by rw [hct]; exact hne
    rw [getResponseLoop_eq_stable transcript waitMs t last ht hlast hne2]
    rw [hct]
  · rw [getResponseLoop_eq_change transcript waitMs t last ht hlast]
    have hct2 : transcript (t + 500) = c := hconst (t + 500) (by omega)
    have heq : transcript (t + 500) = transcript t := by rw [hct2, hct]
    have hne2 : transcript (t + 500) ≠ "" := by rw [hct2]; exact hne
    rw [getResponseLoop_eq_stable transcript waitMs (t + 500) (transcript t)
      hbudget heq hne2]
    rw [hct2]

/-- Witness for the amended C4: a transcript constantly reading "done"
with a 1000 ms bound is returned as `{response := "done", stable := true}`
from the loop's start state. -/
theorem getResponse_stable_contract_witness :
    ("done" : String) ≠ "" ∧ 0 + 500 < 1000 ∧
    getResponseLoop (fun _ => "done") 1000 0 "" =
      { response := "done", stable := true, timeout := false } :=
  ⟨by decide, by decide,
    getResponse_stable_contract (fun _ => "done") "done" 1000 0 ""
      (fun _ _ => rfl) (by decide) (by decide)⟩

/-- The poll loop under an always-changing transcript, from any reachable
loop state whose remembered text is the initial empty string or an
earlier read: it can never observe two equal consecutive non-empty reads,
so when the bound is open it runs to the bound and returns some read
transcript value tagged as timed out. -/
theorem getResponseLoop_strict_timeout (transcript : Nat → String)
    (waitMs : Nat)
    (hstrict : ∀ u v, u < v → transcript u ≠ transcript v) :
    ∀ (t : Nat) (last : String),
      (last = "" ∨ ∃ w, w < t ∧ last = transcript w) →
      t < waitMs →
      ∃ u, t ≤ u ∧ u < waitMs ∧ waitMs ≤ u + 500 ∧
        getResponseLoop transcript waitMs t last =
          { response := transcript u, stable := false, timeout := true } := by
  intro t last
  induction t, last using getResponseLoop.induct transcript waitMs with
  | case1 t last ht content hc ih =>
      intro hinv ht2
      rw [getResponseLoop_eq_change transcript waitMs t last ht hc]
      by_cases hb : t + 500 < waitMs
      · obtain ⟨u, hu1, hu2, hu3, hu4⟩ := ih (Or.inr ⟨t, by omega, rfl⟩) hb
        exact ⟨u, by omega, hu2, hu3, hu4⟩
      · refine ⟨t, le_rfl, ht2, by omega, ?_⟩
        rw [getResponseLoop_eq_timeout transcript waitMs (t + 500)
          (transcript t) hb]
  | case2 t last ht content hc hne =>
      intro hinv ht2
      exfalso
      have hceq : transcript t = last := by
        by_contra hx
        exact hc hx
      rcases hinv with h0 | ⟨w, hw, hlast⟩
      · exact hne (hceq.trans h0)
      · exact hstrict w t hw (hlast.symm.trans hceq.symm)
  | case3 t last ht content hc hne ih =>
      intro hinv ht2
      have hceq : transcript t = last := by
        by_contra hx
        exact hc hx
      have hemp : transcript t = "" := by
        by_contra hx
        exact hne hx
      rw [getResponseLoop_eq_empty transcript waitMs t last ht hceq hemp]
      by_cases hb : t + 200 < waitMs
      · have hinv2 : last = "" ∨ ∃ w, w < t + 200 ∧ last = transcript w :=
          Or.inr ⟨t, by omega, hceq.symm⟩
        obtain ⟨u, hu1, hu2, hu3, hu4⟩ := ih hinv2 hb
        exact ⟨u, by omega, hu2, hu3, hu4⟩
      · refine ⟨t, le_rfl, ht2, by omega, ?_⟩
        rw [getResponseLoop_eq_timeout transcript waitMs (t + 200) last hb]
        rw [hceq]
  | case4 t last ht =>
      intro hinv ht2
      exact absurd ht2 ht

/-- Claim C5: for every timeout bound and every transcript that never
reaches quiet stability within it (here: a transcript that differs at
every pair of read times, so no two reads are ever equal), `getResponse`
terminates (it is a total Lean function, so no error is raised) and
returns the last-observed transcript text tagged `timeout:true`, not an
error: the returned text is the value read at a poll time `u` inside the
bound with `waitMs ≤ u + 500`, so no later read fits before the bound
elapses — it is the final observation. -/
theorem getResponse_timeout_contract (transcript : Nat → String)
    (waitMs : Nat) (hpos : 0 < waitMs)
    (hstrict : ∀ u v, u < v → transcript u ≠ transcript v) :
    ∃ u, u < waitMs ∧ waitMs ≤ u + 500 ∧
      getResponse transcript waitMs =
        { response := transcript u, stable := false, timeout := true } := by
  obtain ⟨u, hu1, hu2, hu3, hu4⟩ :=
    getResponseLoop_strict_timeout transcript waitMs hstrict 0 ""
      (Or.inl rfl) hpos
  exact ⟨u, hu2, hu3, hu4⟩

/-- Witness for C5: the strictly growing transcript with a 300 ms bound
returns a timeout-tagged read within the bound. -/
theorem getResponse_timeout_contract_witness :
    (0 : Nat) < 300 ∧
    ∃ u, u < 300 ∧ 300 ≤ u + 500 ∧
      getResponse wGrowingTranscript 300 =
        { response := wGrowingTranscript u, stable := false,
          timeout := true } :=
  ⟨by decide,
    getResponse_timeout_contract wGrowingTranscript 300 (by decide)
      wGrowingTranscript_strict⟩

end Cascade
